import Mathlib

/-!
Shallow embedding of chainercv/links/model/pixelwise_softmax_classifier.py,
the class PixelwiseSoftmaxClassifier: a wrapper around a semantic-segmentation
predictor that computes a softmax cross-entropy loss and, optionally, four
accuracy metrics, and reports them to the chainer reporter.

The external collaborators (the predictor network, chainer functions, the
numpy/cupy array module and the chainercv evaluator, none of which are part of
the staged source) are abstract parameters bundled in the `Externals`
structure; the glue logic of the wrapper itself — the whole content of the
Python file — is translated definitionally.  Metric values that numpy can turn
into IEEE NaN are modelled as `Option ℚ`, with `none` standing for NaN.
-/

/-- A rational number extended with NaN: `none` models an IEEE NaN, such as an
undefined metric entry for a class absent from the batch. -/
abbrev NanQ : Type := Option ℚ

/-- Modelled from the spec: the result type of
`chainercv.evaluations.eval_semantic_segmentation`, whose code is not under
the staged source.  Per the spec it returns four numeric arrays — pixel
accuracy, per-class accuracy, per-class IoU and frequency-weighted IoU — whose
entries may be NaN for classes absent from the batch. -/
structure SegEval where
  pixel_accuracy : List NanQ
  class_accuracy : List NanQ
  class_iou : List NanQ
  fw_iou : List NanQ
  deriving DecidableEq

/-- `xp.mean` over a one-dimensional array, idealised over ℚ: numpy mean
propagates NaN (any NaN entry, or an empty array, yields NaN); otherwise it is
the arithmetic mean of the entries. -/
def xpMean (a : List NanQ) : NanQ :=
  if a.isEmpty || a.any (fun v => v.isNone) then none
  else some ((a.filterMap id).sum / (a.length : ℚ))

/-- `numpy.nanmean`: the mean of the entries that are not NaN — the reduction
the spec describes for the accuracy metrics; NaN only when no entry remains. -/
def nanMean (a : List NanQ) : NanQ :=
  if (a.filterMap id).isEmpty then none
  else some ((a.filterMap id).sum / ((a.filterMap id).length : ℚ))

/-- The memory space a chainer link lives in, as `to_cpu` and `to_gpu` set
it. -/
inductive Device where
  | cpu : Device
  | gpu : Option Int → Device
  deriving DecidableEq

/-- The predictor network: a chainer link exposing a forward computation and
an `n_class` attribute. -/
structure Predictor (X Y : Type) where
  forward : X → Y
  n_class : Int

/-- The external collaborators the wrapper delegates to, abstract here:
`F.softmax_cross_entropy` (chainer), `np.asarray` with dtype float32 (numpy),
`cuda.to_cpu` / `cuda.to_gpu` (chainer), the `.data` accessors of chainer
variables, `xp.argmax` along the channel axis, and the chainercv evaluator
`eval_semantic_segmentation` (modelled from the spec contract: it receives the
predicted labels, the ground-truth labels and the class count — and nothing
else — and returns the four arrays of `SegEval`). -/
structure Externals (X Y Yd T Td Lab CWin CW L : Type) where
  softmax_cross_entropy : Y → T → Option CW → Int → L
  np_asarray_float32 : CWin → CW
  cuda_to_cpu : CW → CW
  cuda_to_gpu : CW → Option Int → CW
  y_data : Y → Yd
  t_data : T → Td
  xp_argmax : Yd → Lab
  eval_semantic_segmentation : Lab → Td → Int → SegEval

/-- The state of a `PixelwiseSoftmaxClassifier` instance: the owned predictor,
the configuration fields set by `__init__`, the device the chain lives in, and
the transient per-call attributes `y`, `loss` and `accuracy` (absent before
the first call, hence `Option`).  `self_id` models the identity of the Python
instance, used when reports are tagged with `self`. -/
structure PixelwiseSoftmaxClassifier (X Y CW L : Type) where
  self_id : Nat
  predictor : Predictor X Y
  n_class : Int
  ignore_label : Int
  class_weight : Option CW
  compute_accuracy : Bool
  device : Device
  y : Option Y
  loss : Option L
  accuracy : Option SegEval

/-- A value sent to the chainer reporter: either the loss variable or a scalar
metric obtained from `xp.mean`. -/
inductive RVal (L : Type) where
  | lossVal : L → RVal L
  | metric : NanQ → RVal L
  deriving DecidableEq

/-- One observation given to `reporter.report`: the key, its value, and the
`self_id` of the instance the report is tagged with. -/
structure ReportEntry (L : Type) where
  owner : Nat
  key : String
  val : RVal L
  deriving DecidableEq

/-- What a forward call produces: the updated instance, the reports emitted in
order, and the returned loss. -/
structure CallResult (X Y CW L : Type) where
  self : PixelwiseSoftmaxClassifier X Y CW L
  reports : List (ReportEntry L)
  ret : L

/-- The value reported under `key`, when one is (first match in emission
order). -/
def reportValue {L : Type} (rs : List (ReportEntry L)) (key : String) :
    Option (RVal L) :=
  (rs.find? (fun e => e.key == key)).map (fun e => e.val)

/-- `PixelwiseSoftmaxClassifier.__init__`: registers the predictor with the
chain, reads the `n_class` attribute of the predictor, stores `ignore_label`,
converts a provided `class_weight` with `np.asarray(class_weight,
dtype=np.float32)` — keeping `None` otherwise — and stores the
`compute_accuracy` flag. -/
def PixelwiseSoftmaxClassifier.init {X Y Yd T Td Lab CWin CW L : Type}
    (ext : Externals X Y Yd T Td Lab CWin CW L) (predictor : Predictor X Y)
    (objId : Nat) (ignore_label : Int) (class_weight : Option CWin)
    (compute_accuracy : Bool) : PixelwiseSoftmaxClassifier X Y CW L :=
  { self_id := objId
    predictor := predictor
    n_class := predictor.n_class
    ignore_label := ignore_label
    class_weight :=
      match class_weight with
      | some w => some (ext.np_asarray_float32 w)
      | none => none
    compute_accuracy := compute_accuracy
    device := Device.cpu
    y := none
    loss := none
    accuracy := none }

/-- `__init__` called with its default arguments: `ignore_label=-1`,
`class_weight=None`, `compute_accuracy=True`. -/
def PixelwiseSoftmaxClassifier.initDefault {X Y Yd T Td Lab CWin CW L : Type}
    (ext : Externals X Y Yd T Td Lab CWin CW L) (predictor : Predictor X Y)
    (objId : Nat) : PixelwiseSoftmaxClassifier X Y CW L :=
  PixelwiseSoftmaxClassifier.init ext predictor objId (-1) none true

/-- `to_cpu`: `super().to_cpu()` moves the chain (modelled by the `device`
field), then the owned `class_weight` array is moved with `cuda.to_cpu` when
it is not `None`. -/
def PixelwiseSoftmaxClassifier.to_cpu {X Y Yd T Td Lab CWin CW L : Type}
    (ext : Externals X Y Yd T Td Lab CWin CW L)
    (self : PixelwiseSoftmaxClassifier X Y CW L) :
    PixelwiseSoftmaxClassifier X Y CW L :=
  let moved := { self with device := Device.cpu }
  match moved.class_weight with
  | some w => { moved with class_weight := some (ext.cuda_to_cpu w) }
  | none => moved

/-- `to_gpu`: `super().to_gpu(device)` moves the chain, then the owned
`class_weight` array is moved with `cuda.to_gpu` when it is not `None`. -/
def PixelwiseSoftmaxClassifier.to_gpu {X Y Yd T Td Lab CWin CW L : Type}
    (ext : Externals X Y Yd T Td Lab CWin CW L) (d : Option Int)
    (self : PixelwiseSoftmaxClassifier X Y CW L) :
    PixelwiseSoftmaxClassifier X Y CW L :=
  let moved := { self with device := Device.gpu d }
  match moved.class_weight with
  | some w => { moved with class_weight := some (ext.cuda_to_gpu w d) }
  | none => moved

/-- `__call__(x, t)`: runs the predictor, computes the softmax cross-entropy
with the stored class weight and ignore label, reports the loss tagged with
`self`, resets `self.accuracy` to `None`, and when `compute_accuracy` is set
takes the argmax of `self.y.data` along the channel axis, evaluates it with
`eval_semantic_segmentation` against `t.data` and the stored `n_class`, stores
the result and reports the `xp.mean` of each of its four arrays under the keys
pixel_accuracy, mean_accuracy, mean_iou and fw_iou; the loss is returned. -/
def PixelwiseSoftmaxClassifier.call {X Y Yd T Td Lab CWin CW L : Type}
    (ext : Externals X Y Yd T Td Lab CWin CW L)
    (self : PixelwiseSoftmaxClassifier X Y CW L) (x : X) (t : T) :
    CallResult X Y CW L :=
  let yv := self.predictor.forward x
  let lossv := ext.softmax_cross_entropy yv t self.class_weight self.ignore_label
  let reports1 : List (ReportEntry L) :=
    [⟨self.self_id, "loss", RVal.lossVal lossv⟩]
  let self2 := { self with y := some yv, loss := some lossv, accuracy := none }
  if self.compute_accuracy then
    let label := ext.xp_argmax (ext.y_data yv)
    let acc := ext.eval_semantic_segmentation label (ext.t_data t) self.n_class
    { self := { self2 with accuracy := some acc }
      reports := reports1 ++
        [⟨self.self_id, "pixel_accuracy", RVal.metric (xpMean acc.pixel_accuracy)⟩,
         ⟨self.self_id, "mean_accuracy", RVal.metric (xpMean acc.class_accuracy)⟩,
         ⟨self.self_id, "mean_iou", RVal.metric (xpMean acc.class_iou)⟩,
         ⟨self.self_id, "fw_iou", RVal.metric (xpMean acc.fw_iou)⟩]
      ret := lossv }
  else
    { self := self2, reports := reports1, ret := lossv }

/-- The loss value a forward call computes: the class-weighted,
ignore-label-aware softmax cross-entropy between the predictor output on `x`
and `t`. -/
def lossOf {X Y Yd T Td Lab CWin CW L : Type}
    (ext : Externals X Y Yd T Td Lab CWin CW L)
    (s : PixelwiseSoftmaxClassifier X Y CW L) (x : X) (t : T) : L :=
  ext.softmax_cross_entropy (s.predictor.forward x) t s.class_weight s.ignore_label

/-- The evaluator output a forward call computes when accuracy is enabled:
`eval_semantic_segmentation` applied to the argmax of the predictor output,
the ground-truth data, and the stored class count. -/
def segEvalOf {X Y Yd T Td Lab CWin CW L : Type}
    (ext : Externals X Y Yd T Td Lab CWin CW L)
    (s : PixelwiseSoftmaxClassifier X Y CW L) (x : X) (t : T) : SegEval :=
  ext.eval_semantic_segmentation
    (ext.xp_argmax (ext.y_data (s.predictor.forward x))) (ext.t_data t) s.n_class

/-- The number of positions where the predicted and the ground-truth label
agree (labels flattened to lists). -/
def countMatches (pred gt : List Int) : Nat :=
  ((pred.zip gt).filter (fun p => p.1 == p.2)).length

/-- Pixel accuracy counting every pixel of the ground truth: the fraction of
pixels whose predicted label equals the ground-truth label. -/
def pixelAcc (pred gt : List Int) : NanQ :=
  if gt.isEmpty then none
  else some ((countMatches pred gt : ℚ) / (gt.length : ℚ))

/-- Accuracy of one class: among the pixels whose ground truth is `c`, the
fraction predicted as `c`; NaN when the class is absent from the batch. -/
def classAcc (pred gt : List Int) (c : Int) : NanQ :=
  let inC := (pred.zip gt).filter (fun p => p.2 == c)
  if inC.isEmpty then none
  else some (((inC.filter (fun p => p.1 == p.2)).length : ℚ) / (inC.length : ℚ))

/-- IoU of one class: intersection over union of the predicted and the
ground-truth pixel sets of `c`; NaN when both sets are empty. -/
def classIoU (pred gt : List Int) (c : Int) : NanQ :=
  let pairs := pred.zip gt
  let inter := (pairs.filter (fun p => p.1 == c && p.2 == c)).length
  let uni := (pairs.filter (fun p => p.1 == c || p.2 == c)).length
  if uni == 0 then none else some ((inter : ℚ) / (uni : ℚ))

/-- Frequency-weighted IoU: the per-class IoU values weighted by each class
ground-truth frequency, summed over the classes that occur. -/
def fwIoUVal (pred gt : List Int) (n_class : Int) : NanQ :=
  if gt.isEmpty then none
  else some (((List.range n_class.toNat).map (fun c =>
    ((gt.filter (fun g => g == (c : Int))).length : ℚ) / (gt.length : ℚ)
      * ((classIoU pred gt (c : Int)).getD 0))).sum)

/-- A concrete evaluator satisfying the spec contract of
`eval_semantic_segmentation` — it receives predicted labels, ground-truth
labels and the class count, nothing else — used to instantiate the abstract
evaluator parameter in concrete counterexamples.  Per-class entries are NaN
for classes absent from the batch. -/
def cexEval (pred gt : List Int) (n_class : Int) : SegEval :=
  { pixel_accuracy := [pixelAcc pred gt]
    class_accuracy := (List.range n_class.toNat).map (fun c => classAcc pred gt (c : Int))
    class_iou := (List.range n_class.toNat).map (fun c => classIoU pred gt (c : Int))
    fw_iou := [fwIoUVal pred gt n_class] }

/-- A concrete instantiation of the external collaborators over flat label
lists: the predictor output is already a label list, argmax and the data
accessors are the identity, the loss is the constant 0 and the weight
conversions are the identity. -/
def cexExt : Externals Nat (List Int) (List Int) (List Int) (List Int)
    (List Int) (List ℚ) (List ℚ) ℚ :=
  { softmax_cross_entropy := fun _ _ _ _ => 0
    np_asarray_float32 := fun w => w
    cuda_to_cpu := fun w => w
    cuda_to_gpu := fun w _ => w
    y_data := fun v => v
    t_data := fun v => v
    xp_argmax := fun v => v
    eval_semantic_segmentation := cexEval }

/-- A concrete classifier for the C1 counterexample: two classes, default
ignore label and weights, accuracy enabled, whose predictor labels every
pixel 0. -/
def cexState : PixelwiseSoftmaxClassifier Nat (List Int) (List ℚ) ℚ :=
  PixelwiseSoftmaxClassifier.init cexExt ⟨fun _ => [0, 0], 2⟩ 0 (-1) none true

/-- A concrete classifier for the C2 failing input: three classes,
`ignore_label = 2`, accuracy enabled, whose predictor labels every pixel 1. -/
def c2State : PixelwiseSoftmaxClassifier Nat (List Int) (List ℚ) ℚ :=
  PixelwiseSoftmaxClassifier.init cexExt ⟨fun _ => [1, 1], 3⟩ 0 2 none true

/-- The exclusion the spec claims for the accuracy path, stated from the spec
wording for comparison with what the code computes: drop the pixels whose
ground-truth label equals the configured ignore label, then measure pixel
accuracy on the remaining pixels. -/
def specIgnoredPixelAccuracy (pred gt : List Int) (ignore : Int) : NanQ :=
  let kept := (pred.zip gt).filter (fun p => !(p.2 == ignore))
  pixelAcc (kept.map (fun p => p.1)) (kept.map (fun p => p.2))

/-- C1 (amended): when accuracy computation is enabled, the forward call
reports, after the loss, the plain arithmetic mean (`xp.mean`, which yields
NaN when the array holds a NaN entry instead of ignoring it) of each of the
four evaluator outputs, under the keys pixel_accuracy, mean_accuracy,
mean_iou and fw_iou, in that order. -/
theorem C1_accuracy_means_reported {X Y Yd T Td Lab CWin CW L : Type}
    (ext : Externals X Y Yd T Td Lab CWin CW L)
    (s : PixelwiseSoftmaxClassifier X Y CW L) (x : X) (t : T) :
    (PixelwiseSoftmaxClassifier.call ext { s with compute_accuracy := true } x t).reports =
      [⟨s.self_id, "loss", RVal.lossVal (lossOf ext s x t)⟩,
       ⟨s.self_id, "pixel_accuracy", RVal.metric (xpMean (segEvalOf ext s x t).pixel_accuracy)⟩,
       ⟨s.self_id, "mean_accuracy", RVal.metric (xpMean (segEvalOf ext s x t).class_accuracy)⟩,
       ⟨s.self_id, "mean_iou", RVal.metric (xpMean (segEvalOf ext s x t).class_iou)⟩,
       ⟨s.self_id, "fw_iou", RVal.metric (xpMean (segEvalOf ext s x t).fw_iou)⟩] := rfl

/-- C1 counterexample: with two classes, ground truth [0, 0] and prediction
[0, 0], class 1 is absent, so the per-class IoU array of the evaluator is
[1, NaN]; the call reports NaN (`none`) under mean_iou, whereas the mean that
ignores NaN entries is 1 — the reported scalar is not that mean. -/
theorem C1_counterexample :
    reportValue (PixelwiseSoftmaxClassifier.call cexExt cexState 0 [0, 0]).reports "mean_iou"
        = some (RVal.metric none)
      ∧ (cexExt.eval_semantic_segmentation [0, 0] [0, 0] 2).class_iou = [some 1, none]
      ∧ nanMean [some 1, none] = some 1
      ∧ RVal.metric (none : NanQ) ≠ (RVal.metric (some 1) : RVal ℚ) := by
  refine ⟨by decide, ?_, ?_, by decide⟩
  · have h0 : classIoU [0, 0] [0, 0] ((0 : ℕ) : Int)
        = some (((2 : ℕ) : ℚ) / ((2 : ℕ) : ℚ)) := rfl
    have h1 : classIoU [0, 0] [0, 0] ((1 : ℕ) : Int) = none := rfl
    show [classIoU [0, 0] [0, 0] ((0 : ℕ) : Int),
          classIoU [0, 0] [0, 0] ((1 : ℕ) : Int)] = [some 1, none]
    rw [h0, h1]
    norm_num
  · show some (List.sum [(1 : ℚ)] / ((List.length [(1 : ℚ)] : ℕ) : ℚ)) = some 1
    norm_num

/-- C2: the forward call hands the evaluator the raw ground-truth data and no
ignore label, so the pixel whose ground truth equals the configured
`ignore_label` (here 2) still enters the accuracy computation: the reported
pixel accuracy is 1/2, counting that pixel, while the exclusion the claim
describes would give 1; and re-configuring `ignore_label` changes neither the
stored accuracy nor the reported metrics. -/
theorem C2_ignore_label_not_applied_to_accuracy :
    reportValue (PixelwiseSoftmaxClassifier.call cexExt c2State 0 [2, 1]).reports "pixel_accuracy"
        = some (RVal.metric (some (1 / 2)))
      ∧ specIgnoredPixelAccuracy [1, 1] [2, 1] 2 = some 1
      ∧ (PixelwiseSoftmaxClassifier.call cexExt { c2State with ignore_label := 9 } 0 [2, 1]).self.accuracy
        = (PixelwiseSoftmaxClassifier.call cexExt c2State 0 [2, 1]).self.accuracy
      ∧ (PixelwiseSoftmaxClassifier.call cexExt { c2State with ignore_label := 9 } 0 [2, 1]).reports.tail
        = (PixelwiseSoftmaxClassifier.call cexExt c2State 0 [2, 1]).reports.tail := by
  refine ⟨?_, ?_, rfl, rfl⟩
  · show some (RVal.metric (some (List.sum [((1 : ℕ) : ℚ) / ((2 : ℕ) : ℚ)] /
        ((List.length [((1 : ℕ) : ℚ) / ((2 : ℕ) : ℚ)] : ℕ) : ℚ))))
        = some (RVal.metric (some (1 / 2)))
    norm_num
  · show some (((1 : ℕ) : ℚ) / ((1 : ℕ) : ℚ)) = some 1
    norm_num

/-- C3: with accuracy computation disabled the forward call emits exactly one
report — the loss, under the key "loss" — so none of the four accuracy keys is
reported; and the loss it reports and returns is the very value the run of the
same call with accuracy computation enabled reports under "loss" and
returns. -/
theorem C3_compute_accuracy_noninterference {X Y Yd T Td Lab CWin CW L : Type}
    (ext : Externals X Y Yd T Td Lab CWin CW L)
    (s : PixelwiseSoftmaxClassifier X Y CW L) (x : X) (t : T) :
    (PixelwiseSoftmaxClassifier.call ext { s with compute_accuracy := false } x t).reports
        = [⟨s.self_id, "loss", RVal.lossVal (lossOf ext s x t)⟩]
      ∧ (PixelwiseSoftmaxClassifier.call ext { s with compute_accuracy := false } x t).ret
        = lossOf ext s x t
      ∧ (PixelwiseSoftmaxClassifier.call ext { s with compute_accuracy := true } x t).ret
        = lossOf ext s x t
      ∧ reportValue
          (PixelwiseSoftmaxClassifier.call ext { s with compute_accuracy := true } x t).reports
          "loss"
        = some (RVal.lossVal (lossOf ext s x t)) :=
  ⟨rfl, rfl, rfl, rfl⟩

/-- C4: the forward call returns the class-weighted, ignore-label-aware
softmax cross-entropy between the predictor output on x and t, and the first
report it emits — before any accuracy metric — is that very value under the
key "loss", tagged with the instance. -/
theorem C4_loss_returned_and_reported_first {X Y Yd T Td Lab CWin CW L : Type}
    (ext : Externals X Y Yd T Td Lab CWin CW L)
    (s : PixelwiseSoftmaxClassifier X Y CW L) (x : X) (t : T) :
    (PixelwiseSoftmaxClassifier.call ext s x t).ret
        = ext.softmax_cross_entropy (s.predictor.forward x) t s.class_weight s.ignore_label
      ∧ (PixelwiseSoftmaxClassifier.call ext s x t).reports.head?
        = some ⟨s.self_id, "loss",
            RVal.lossVal (ext.softmax_cross_entropy (s.predictor.forward x) t
              s.class_weight s.ignore_label)⟩ := by
  cases hc : s.compute_accuracy <;>
    simp [PixelwiseSoftmaxClassifier.call, hc]

/-- C5: the constructor converts a provided class-weight sequence with
np.asarray at dtype float32 and stores the result, and stores None when no
class weights are provided. -/
theorem C5_class_weight_stored {X Y Yd T Td Lab CWin CW L : Type}
    (ext : Externals X Y Yd T Td Lab CWin CW L) (p : Predictor X Y)
    (objId : Nat) (il : Int) (w : CWin) (ca : Bool) :
    (PixelwiseSoftmaxClassifier.init ext p objId il (some w) ca).class_weight
        = some (ext.np_asarray_float32 w)
      ∧ (PixelwiseSoftmaxClassifier.init ext p objId il none ca).class_weight = none :=
  ⟨rfl, rfl⟩

/-- C6: on a classifier whose class_weight is None, both device-transfer
operations leave class_weight unchanged as None. -/
theorem C6_transfer_noop_on_none_weight {X Y Yd T Td Lab CWin CW L : Type}
    (ext : Externals X Y Yd T Td Lab CWin CW L)
    (s : PixelwiseSoftmaxClassifier X Y CW L) (d : Option Int) :
    (PixelwiseSoftmaxClassifier.to_cpu ext { s with class_weight := none }).class_weight
        = none
      ∧ (PixelwiseSoftmaxClassifier.to_gpu ext d { s with class_weight := none }).class_weight
        = none :=
  ⟨rfl, rfl⟩

/-- C7: the constructor reads the predictor class-count attribute and stores
it; a forward call depends on the predictor only through its forward function
— replacing the predictor n_class attribute by any other value changes
neither the reports, nor the returned loss, nor the stored accuracy — and
when accuracy is enabled the evaluator receives the stored n_class. -/
theorem C7_n_class_read_once {X Y Yd T Td Lab CWin CW L : Type}
    (ext : Externals X Y Yd T Td Lab CWin CW L) (p : Predictor X Y)
    (objId : Nat) (il : Int) (cw : Option CWin) (ca : Bool)
    (s : PixelwiseSoftmaxClassifier X Y CW L) (m : Int) (x : X) (t : T) :
    (PixelwiseSoftmaxClassifier.init ext p objId il cw ca).n_class = p.n_class
      ∧ (PixelwiseSoftmaxClassifier.call ext
            { s with predictor := ⟨s.predictor.forward, m⟩ } x t).reports
        = (PixelwiseSoftmaxClassifier.call ext s x t).reports
      ∧ (PixelwiseSoftmaxClassifier.call ext
            { s with predictor := ⟨s.predictor.forward, m⟩ } x t).ret
        = (PixelwiseSoftmaxClassifier.call ext s x t).ret
      ∧ (PixelwiseSoftmaxClassifier.call ext
            { s with predictor := ⟨s.predictor.forward, m⟩ } x t).self.accuracy
        = (PixelwiseSoftmaxClassifier.call ext s x t).self.accuracy
      ∧ (PixelwiseSoftmaxClassifier.call ext
            { s with compute_accuracy := true } x t).self.accuracy
        = some (segEvalOf ext s x t) := by
  refine ⟨rfl, ?_⟩
  cases hc : s.compute_accuracy <;>
    simp [PixelwiseSoftmaxClassifier.call, segEvalOf, hc]

/-- C8: construction with the parameters left at their defaults stores
ignore_label = -1 and compute_accuracy = true, and a forward call passes the
stored -1 to the softmax cross-entropy as the ignore label like any other
sentinel class id. -/
theorem C8_default_config {X Y Yd T Td Lab CWin CW L : Type}
    (ext : Externals X Y Yd T Td Lab CWin CW L) (p : Predictor X Y)
    (objId : Nat) (x : X) (t : T) :
    (PixelwiseSoftmaxClassifier.initDefault ext p objId).ignore_label = -1
      ∧ (PixelwiseSoftmaxClassifier.initDefault ext p objId).compute_accuracy = true
      ∧ (PixelwiseSoftmaxClassifier.call ext
            (PixelwiseSoftmaxClassifier.initDefault ext p objId) x t).ret
        = ext.softmax_cross_entropy (p.forward x) t none (-1) :=
  ⟨rfl, rfl, rfl⟩

/-- C9: a forward call leaves every configuration field unchanged — n_class,
ignore_label, class_weight, compute_accuracy, together with the predictor,
the instance identity and the device — and the state after the call is the
state before it with only the transient fields y, loss and accuracy
replaced. -/
theorem C9_call_frame {X Y Yd T Td Lab CWin CW L : Type}
    (ext : Externals X Y Yd T Td Lab CWin CW L)
    (s : PixelwiseSoftmaxClassifier X Y CW L) (x : X) (t : T) :
    (PixelwiseSoftmaxClassifier.call ext s x t).self.n_class = s.n_class
      ∧ (PixelwiseSoftmaxClassifier.call ext s x t).self.ignore_label = s.ignore_label
      ∧ (PixelwiseSoftmaxClassifier.call ext s x t).self.class_weight = s.class_weight
      ∧ (PixelwiseSoftmaxClassifier.call ext s x t).self.compute_accuracy = s.compute_accuracy
      ∧ (PixelwiseSoftmaxClassifier.call ext s x t).self.predictor = s.predictor
      ∧ (PixelwiseSoftmaxClassifier.call ext s x t).self.self_id = s.self_id
      ∧ (PixelwiseSoftmaxClassifier.call ext s x t).self.device = s.device
      ∧ (PixelwiseSoftmaxClassifier.call ext s x t).self
        = { s with y := (PixelwiseSoftmaxClassifier.call ext s x t).self.y,
                   loss := (PixelwiseSoftmaxClassifier.call ext s x t).self.loss,
                   accuracy := (PixelwiseSoftmaxClassifier.call ext s x t).self.accuracy } := by
  cases hc : s.compute_accuracy <;>
    simp [PixelwiseSoftmaxClassifier.call, hc]

/-- C10: any forward call made with compute_accuracy false leaves the
accuracy attribute at None — in particular the value stored by an earlier
call made with accuracy enabled does not survive a later call made with
accuracy disabled. -/
theorem C10_accuracy_reset_when_disabled {X Y Yd T Td Lab CWin CW L : Type}
    (ext : Externals X Y Yd T Td Lab CWin CW L)
    (s : PixelwiseSoftmaxClassifier X Y CW L) (x : X) (t : T) (x2 : X) (t2 : T) :
    (PixelwiseSoftmaxClassifier.call ext { s with compute_accuracy := false } x t).self.accuracy
        = none
      ∧ (PixelwiseSoftmaxClassifier.call ext
            { (PixelwiseSoftmaxClassifier.call ext
                { s with compute_accuracy := true } x t).self
              with compute_accuracy := false } x2 t2).self.accuracy
        = none :=
  ⟨rfl, rfl⟩
